import Mathlib

set_option maxHeartbeats 1000000

/- Shallow embedding of src/main.py, a tool driving Linux-perf invocations.
   Configuration values are modelled by an inductive Value type and a
   configuration by an association list; the command construction of the
   record and stat stages is translated token for token.  External effects
   (child processes, the filesystem) are modelled by a World record of
   oracle outcomes, and each operation additionally returns an event trace
   listing directory creation, process spawns and the configuration
   snapshot write.  Stage log-file writes that no property depends on are
   modelled as always succeeding; the snapshot write carries an explicit
   success flag in World.  An uncaught Python exception is modelled by
   Res.exn at stage level and by Outcome.crash at run level. -/

/-- Scalar, string, list-of-strings, boolean or null values that the YAML
configuration mapping of this program can hold. -/
inductive Value where
  | vInt (n : Int)
  | vStr (s : String)
  | vList (l : List String)
  | vBool (b : Bool)
  | vNone
deriving DecidableEq

/-- A configuration: an association list from option names to values,
mirroring the mapping yaml.safe_load produces. -/
abbrev Config := List (String × Value)

/-- First binding of a key, mirroring Python dict lookup. -/
def cfgFind (c : Config) (k : String) : Option Value :=
  (List.find? (fun p => p.1 == k) c).map Prod.snd

/-- Python dict.get with a default value. -/
def cfgGet (c : Config) (k : String) (dflt : Value) : Value :=
  (cfgFind c k).getD dflt

/-- Python membership test of a key in the configuration mapping. -/
def cfgHas (c : Config) (k : String) : Bool :=
  (cfgFind c k).isSome

/-- Python truthiness of a value. -/
def truthy : Value → Bool
  | .vInt n => n != 0
  | .vStr s => !s.data.isEmpty
  | .vList l => !l.isEmpty
  | .vBool b => b
  | .vNone => false

/-- Python string join with a separator, kept kernel-computable. -/
def pyJoinList (sep : String) : List String → String
  | [] => ""
  | [x] => x
  | x :: y :: xs => x ++ sep ++ pyJoinList sep (y :: xs)

/-- Python str() of a value. -/
def pyStr : Value → String
  | .vInt n => toString n
  | .vStr s => s
  | .vList l => "[" ++ pyJoinList ", " (l.map (fun s => "\x27" ++ s ++ "\x27")) ++ "]"
  | .vBool b => if b then "True" else "False"
  | .vNone => "None"

/-- Python comma join of a value: defined for lists of strings and for
strings (which join their characters); a TypeError (none) otherwise. -/
def pyJoinComma : Value → Option String
  | .vList l => some (pyJoinList "," l)
  | .vStr s => some (pyJoinList "," (s.data.map (fun c => String.mk [c])))
  | _ => none

/-- Python equality test between a configuration value and a string
literal: only equal strings compare equal. -/
def valueEqStr : Value → String → Bool
  | .vStr t, s => t == s
  | _, _ => false

/-- Whitespace stripped from both ends of a character list, mirroring the
surrounding-whitespace tolerance of Python int(). -/
def trimChars (l : List Char) : List Char :=
  ((l.dropWhile Char.isWhitespace).reverse.dropWhile Char.isWhitespace).reverse

/-- Python int() applied to a string: optional surrounding whitespace,
optional sign, then decimal digits. -/
def pyInt (s : String) : Option Int :=
  let t := trimChars s.data
  let neg := match t with
    | c :: _ => c == '-'
    | [] => false
  let core := match t with
    | c :: rest => if c == '-' || c == '+' then rest else t
    | [] => []
  if core.isEmpty then none
  else if core.all Char.isDigit then
    some (if neg then -(Nat.ofDigits 10 ((core.map (fun c => c.toNat - 48)).reverse) : Int)
          else (Nat.ofDigits 10 ((core.map (fun c => c.toNat - 48)).reverse) : Int))
  else none

/-- Python range(start, stop) as a list of integers. -/
def pyRange (start stop : Int) : List Int :=
  (List.range (stop - start).toNat).map (fun i => start + i)

/-- Python os.path.join restricted to the shapes this program uses. -/
def pyPathJoin (a b : String) : String :=
  if b.data.head? = some (Char.ofNat 47) then b
  else if a = "" then b
  else if a.data.getLast? = some (Char.ofNat 47) then a ++ b
  else a ++ "/" ++ b

/-- Split of a character list at every occurrence of a separator character,
keeping empty segments, as Python str.split with an explicit separator. -/
def splitChar (c : Char) : List Char → List (List Char)
  | [] => [[]]
  | x :: xs =>
    match splitChar c xs with
    | [] => [[]]
    | y :: ys => if x == c then [] :: y :: ys else (x :: y) :: ys

/-- Python split of a string on the dash separator. -/
def pySplitDash (s : String) : List String :=
  (splitChar (Char.ofNat 45) s.data).map String.mk

/-- The three pipeline stages. -/
inductive Stage where
  | record
  | annotate
  | stat
deriving DecidableEq

/-- Externally visible effects of a run: creation of the timestamped run
directory, a child-process spawn with its argument vector, and the final
configuration snapshot write with its contents. -/
inductive Event where
  | mkdirRun (path : String)
  | spawn (stage : Stage) (cmd : List String)
  | writeSnapshot (cfg : Config)
deriving DecidableEq

/-- Outcome of one subprocess.run call: clean exit, non-zero exit (raising
CalledProcessError under check=True), or an OSError from the spawn itself
(binary not found, permission denied). -/
inductive SpawnResult where
  | exitZero
  | exitNonZero
  | spawnError
deriving DecidableEq

/-- Environment oracles for one run: whether the run directory already
exists, whether creating it succeeds, the outcome of each stage's child
process, and whether the snapshot write succeeds. -/
structure World where
  dirExists : Bool
  mkdirOk : Bool
  recordSpawn : SpawnResult
  annotateSpawn : SpawnResult
  statSpawn : SpawnResult
  snapshotWriteOk : Bool
deriving DecidableEq

/-- Stage computation result: a returned value, or an uncaught Python
exception propagating out of the method. -/
inductive Res (α : Type) where
  | ok (a : α)
  | exn
deriving DecidableEq

/-- Command-construction error: an uncaught TypeError, or the exception
caught by the cpu_range try block of run_perf_stat. -/
inductive BuildErr where
  | typeErr
  | cpuRangeErr
deriving DecidableEq

/-- Overall outcome of PerfTool.run: the boolean it returns, or an uncaught
exception crashing the interpreter. -/
inductive Outcome where
  | success
  | failure
  | crash
deriving DecidableEq

/-- Process exit status which main() derives from the outcome of run();
an uncaught exception also terminates the interpreter with status 1. -/
def exitCode : Outcome → Nat
  | .success => 0
  | .failure => 1
  | .crash => 1

/-- Whether an event is a child-process spawn. -/
def Event.isSpawn : Event → Bool
  | .spawn _ _ => true
  | _ => false

/-- Whether an event is a child-process spawn of the given stage. -/
def Event.isSpawnOf (st : Stage) : Event → Bool
  | .spawn s _ => decide (s = st)
  | _ => false

/-- Configuration snapshots written during a trace. -/
def snapshotContents (tr : List Event) : List Config :=
  tr.filterMap (fun e => match e with | .writeSnapshot c => some c | _ => none)

namespace PerfTool

/-- Required configuration keys checked by validate_config. -/
def required_keys : List String :=
  ["perf_record_frequency", "perf_record_duration", "perf_stat_duration"]

/-- validate_config (main.py lines 52-64): a pure presence check of the
three required keys; values are never inspected. -/
def validate_config (cfg : Config) : Bool :=
  required_keys.all (fun k => cfgHas cfg k)

/-- Default stat event list (main.py lines 158-160). -/
def statDefaultEvents : List String :=
  ["cycles", "instructions", "branch-misses",
   "L1-dcache-load-misses", "L1-icache-load-misses"]

/-- Event tokens of the record command: comma join wrapped in braces with
the colon-S group suffix (main.py lines 82-86). -/
def recordEventsTokens (events : Value) : Option (List String) :=
  if truthy events then
    match pyJoinComma events with
    | some j => some ["-e", "\x7b" ++ j ++ "\x7d:S"]
    | none => none
  else some []

/-- Event tokens of the stat command: plain comma join (main.py 178-180). -/
def statEventsTokens (events : Value) : Option (List String) :=
  if truthy events then
    match pyJoinComma events with
    | some j => some ["-e", j]
    | none => none
  else some []

/-- cpu_range parsing of run_perf_stat (main.py lines 184-187): split on
the dash, int() both bounds, expand to a comma-joined inclusive index
list; none models the exception the surrounding try block catches. -/
def parseCpuRange (v : Value) : Option String :=
  match v with
  | .vStr s =>
    match pySplitDash s with
    | [a, b] =>
      match pyInt a, pyInt b with
      | some x, some y =>
        some (pyJoinList "," ((pyRange x (y + 1)).map (fun n => toString n)))
      | _, _ => none
    | _ => none
  | _ => none

/-- Tokens appended for cpu_range (main.py lines 182-191): nothing when it
is the literal string all, else the parsed index list behind a -C flag. -/
def statCpuTokens (cpu_range : Value) : Option (List String) :=
  if valueEqStr cpu_range "all" then some []
  else (parseCpuRange cpu_range).map (fun s => ["-C", s])

/-- Trailing tokens of record and stat commands (main.py 107-111, 207-211):
sleep plus the stringified duration when duration is truthy, otherwise the
workload appended as one single token, which must be a string for
subprocess.run to accept the argument vector. -/
def tailTokens (duration workload : Value) : Option (List String) :=
  if truthy duration then some ["sleep", pyStr duration]
  else
    match workload with
    | .vStr s => some [s]
    | _ => none

/-- Command vector built by run_perf_record (main.py lines 66-111). -/
def buildRecordCmd (cfg : Config) (output_dir : String) : Except BuildErr (List String) :=
  let frequency := cfgGet cfg "perf_record_frequency" (.vInt 99)
  let duration := cfgGet cfg "perf_record_duration" (.vInt 30)
  let events := cfgGet cfg "perf_record_events" (.vList ["cycles"])
  let record_workload := cfgGet cfg "perf_record_workload" (.vStr "bench futex hash")
  let output_file := pyPathJoin output_dir "perf.data"
  match recordEventsTokens events with
  | none => .error .typeErr
  | some eTok =>
    match tailTokens duration record_workload with
    | none => .error .typeErr
    | some tTok =>
      .ok (["perf", "record", "-F", pyStr frequency, "-a"] ++ eTok
        ++ ["-g", "-a", "-o", output_file] ++ tTok)

/-- Command vector built by run_perf_stat (main.py lines 152-211);
cpuRangeErr is the failure its try block catches and turns into a False
return, typeErr an exception nothing catches. -/
def buildStatCmd (cfg : Config) : Except BuildErr (List String) :=
  let duration := cfgGet cfg "perf_stat_duration" (.vInt 10)
  let count_deltas := cfgGet cfg "perf_stat_count_deltas" (.vInt 1000)
  let events := cfgGet cfg "perf_stat_events" (.vList statDefaultEvents)
  let cpu_range := cfgGet cfg "perf_stat_cpu_range" (.vStr "all")
  let all_threads := cfgGet cfg "perf_stat_all_threads" (.vBool true)
  let stat_workload := cfgGet cfg "perf_stat_workload" (.vStr "bench futex hash")
  match statEventsTokens events with
  | none => .error .typeErr
  | some eTok =>
    match statCpuTokens cpu_range with
    | none => .error .cpuRangeErr
    | some cTok =>
      match tailTokens duration stat_workload with
      | none => .error .typeErr
      | some tTok =>
        .ok (["perf", "stat", "-a"]
          ++ (if truthy count_deltas then ["-I", pyStr count_deltas] else [])
          ++ eTok ++ cTok
          ++ (if truthy all_threads then ["-A"] else [])
          ++ tTok)

/-- run_perf_record (main.py lines 66-128): build the command, spawn it,
return the perf.data path on success and None on CalledProcessError; any
other exception propagates (Res.exn).  A spawn that fails with OSError
runs no child process, hence emits no spawn event. -/
def run_perf_record (cfg : Config) (output_dir : String) (w : World) :
    Res (Option String) × List Event :=
  match buildRecordCmd cfg output_dir with
  | .error _ => (.exn, [])
  | .ok cmd =>
    match w.recordSpawn with
    | .exitZero => (.ok (some (pyPathJoin output_dir "perf.data")), [.spawn .record cmd])
    | .exitNonZero => (.ok none, [.spawn .record cmd])
    | .spawnError => (.exn, [])

/-- run_perf_annotate (main.py lines 130-150): trivially True when the
stage is disabled, else spawn the annotate command; CalledProcessError
yields False, a spawn OSError propagates. -/
def run_perf_annotate (cfg : Config) (perf_data_file : String) (w : World) :
    Res Bool × List Event :=
  if !truthy (cfgGet cfg "use_perf_annotation" (.vBool false)) then (.ok true, [])
  else
    match w.annotateSpawn with
    | .exitZero => (.ok true, [.spawn .annotate ["perf", "annotate", "-i", perf_data_file]])
    | .exitNonZero => (.ok false, [.spawn .annotate ["perf", "annotate", "-i", perf_data_file]])
    | .spawnError => (.exn, [])

/-- run_perf_stat (main.py lines 152-223): a malformed cpu_range is caught
and yields False before any spawn; CalledProcessError of the child yields
False; a spawn OSError propagates. -/
def run_perf_stat (cfg : Config) (w : World) : Res Bool × List Event :=
  match buildStatCmd cfg with
  | .error .cpuRangeErr => (.ok false, [])
  | .error .typeErr => (.exn, [])
  | .ok cmd =>
    match w.statSpawn with
    | .exitZero => (.ok true, [.spawn .stat cmd])
    | .exitNonZero => (.ok false, [.spawn .stat cmd])
    | .spawnError => (.exn, [])

/-- load_config (main.py lines 32-50): loaded is the parsed YAML mapping
(none when reading or parsing fails); the timestamped run directory is
resolved and created here, before any validation.  Every exception is
caught and turns into a False return (none). -/
def load_config (loaded : Option Config) (timestamp : String) (w : World) :
    Option (Config × String) × List Event :=
  match loaded with
  | none => (none, [])
  | some cfg =>
    match cfgGet cfg "output_directory" (.vStr "tmp/perf_results") with
    | .vStr base =>
      let output_dir := pyPathJoin base ("perf_run_" ++ timestamp)
      if w.dirExists then (some (cfg, output_dir), [])
      else if w.mkdirOk then (some (cfg, output_dir), [.mkdirRun output_dir])
      else (none, [])
    | _ => (none, [])

/-- PerfTool.run (main.py lines 225-247): load and validate, abort on
record failure, tolerate annotate and stat failures, then write the loaded
configuration into the run directory; a failing snapshot write is an
uncaught exception. -/
def run (loaded : Option Config) (timestamp : String) (w : World) :
    Outcome × List Event :=
  match load_config loaded timestamp w with
  | (none, tr) => (.failure, tr)
  | (some (cfg, output_dir), tr) =>
    if validate_config cfg then
      match run_perf_record cfg output_dir w with
      | (.exn, tr1) => (.crash, tr ++ tr1)
      | (.ok none, tr1) => (.failure, tr ++ tr1)
      | (.ok (some perf_data_file), tr1) =>
        match run_perf_annotate cfg perf_data_file w with
        | (.exn, tr2) => (.crash, tr ++ tr1 ++ tr2)
        | (.ok _, tr2) =>
          match run_perf_stat cfg w with
          | (.exn, tr3) => (.crash, tr ++ tr1 ++ tr2 ++ tr3)
          | (.ok _, tr3) =>
            if w.snapshotWriteOk then
              (.success, tr ++ tr1 ++ tr2 ++ tr3 ++ [.writeSnapshot cfg])
            else
              (.crash, tr ++ tr1 ++ tr2 ++ tr3)
    else (.failure, tr)

end PerfTool

/-- Minimal valid configuration: exactly the three required keys. -/
def cfg0 : Config :=
  [("perf_record_frequency", .vInt 99),
   ("perf_record_duration", .vInt 30),
   ("perf_stat_duration", .vInt 10)]

/-- A fixed timestamp for concrete runs. -/
def ts0 : String := "20240102_030405"

/-- The run directory cfg0 resolves to at timestamp ts0. -/
def dir0 : String := "tmp/perf_results/perf_run_20240102_030405"

/-- World in which every external operation succeeds. -/
def wGood : World := ⟨false, true, .exitZero, .exitZero, .exitZero, true⟩

/-- World in which the record child exits with a non-zero status. -/
def wRecFail : World := ⟨false, true, .exitNonZero, .exitZero, .exitZero, true⟩

/-- World in which spawning the record child raises an OSError. -/
def wRecSpawnErr : World := ⟨false, true, .spawnError, .exitZero, .exitZero, true⟩

/-- World in which only the final snapshot write fails. -/
def wNoSnap : World := ⟨false, true, .exitZero, .exitZero, .exitZero, false⟩

/-- World in which the stat child exits with a non-zero status. -/
def wStatFail : World := ⟨false, true, .exitZero, .exitZero, .exitNonZero, true⟩

/-- The record command cfg0 produces in directory dir0. -/
def recordCmd0 : List String :=
  ["perf", "record", "-F", "99", "-a", "-e", "\x7bcycles\x7d:S", "-g", "-a", "-o",
   "tmp/perf_results/perf_run_20240102_030405/perf.data", "sleep", "30"]

/-- Comma join of the five default stat events. -/
def statEv5 : String :=
  "cycles,instructions,branch-misses,L1-dcache-load-misses,L1-icache-load-misses"

/-- cfg0 with an inverted cpu range. -/
def cfg30 : Config := cfg0 ++ [("perf_stat_cpu_range", .vStr "3-0")]

/-- cfg0 with a well-formed cpu range. -/
def cfgRange : Config := cfg0 ++ [("perf_stat_cpu_range", .vStr "0-3")]

/-- cfg0 with the annotate stage enabled. -/
def cfgAnn : Config := cfg0 ++ [("use_perf_annotation", .vBool true)]

/-- All three required keys present but with nonsense values. -/
def cfg9 : Config :=
  [("perf_record_frequency", .vStr "not a number"),
   ("perf_record_duration", .vInt (-7)),
   ("perf_stat_duration", .vNone)]

/-- A configuration missing two of the three required keys. -/
def cfgMissing : Config := [("perf_record_frequency", .vInt 99)]

/-- Decidable equality of command-construction results, so that concrete
builds can be checked by evaluation. -/
instance {ε α : Type} [DecidableEq ε] [DecidableEq α] : DecidableEq (Except ε α) :=
  fun a b =>
    match a, b with
    | .ok x, .ok y => decidable_of_iff (x = y) (by simp)
    | .error x, .error y => decidable_of_iff (x = y) (by simp)
    | .ok _, .error _ => isFalse (by simp)
    | .error _, .ok _ => isFalse (by simp)

/-- Infix occurrence of a two-element list in the empty list is impossible. -/
theorem pair_infix_nil {α : Type} (a b : α) : ¬ ([a, b] <:+: ([] : List α)) := by
  rintro ⟨s, t, h⟩
  rcases List.append_eq_nil.mp h with ⟨h1, h2⟩
  rcases List.append_eq_nil.mp h1 with ⟨h3, h4⟩
  exact List.cons_ne_nil a [b] h4

/-- Recursive characterisation of a two-element infix occurrence. -/
theorem pair_infix_cons {α : Type} (a b x : α) (l : List α) :
    [a, b] <:+: x :: l ↔ (x = a ∧ l.head? = some b) ∨ [a, b] <:+: l := by
  constructor
  · rintro ⟨s, t, h⟩
    cases s with
    | nil =>
      simp only [List.nil_append, List.cons_append] at h
      injection h with h1 h2
      exact Or.inl ⟨h1.symm, by rw [← h2]; rfl⟩
    | cons y s' =>
      simp only [List.cons_append] at h
      injection h with h1 h2
      exact Or.inr ⟨s', t, h2⟩
  · rintro (⟨rfl, hb⟩ | ⟨s, t, rfl⟩)
    · cases l with
      | nil => simp at hb
      | cons c l' =>
        simp only [List.head?_cons, Option.some.injEq] at hb
        subst hb
        exact ⟨[], l', rfl⟩
    · exact ⟨x :: s, t, rfl⟩

/-- A two-element suffix of a list ending in two given elements is exactly
those two elements. -/
theorem suffix_pair {α : Type} (a b p q : α) (l : List α) :
    [a, b] <:+ l ++ [p, q] ↔ a = p ∧ b = q := by
  constructor
  · rintro ⟨t, h⟩
    have h2 : (t ++ [a]) ++ [b] = (l ++ [p]) ++ [q] := by
      simpa [List.append_assoc] using h
    have h3 := List.append_inj' h2 rfl
    have h4 : b = q := by
      have h5 := h3.2
      injection h5
    have h6 := List.append_inj' h3.1 rfl
    have h7 : a = p := by
      have h8 := h6.2
      injection h8
    exact ⟨h7, h4⟩
  · rintro ⟨rfl, rfl⟩
    exact ⟨l, rfl⟩

/-- The joined output path is at least nine characters long, hence distinct
from any short flag or the sleep token. -/
theorem pyPathJoin_perfdata_length (a : String) :
    9 ≤ (pyPathJoin a "perf.data").length := by
  unfold pyPathJoin
  split
  · decide
  · split
    · decide
    · split
      · rw [String.length_append]
        have h9 : "perf.data".length = 9 := by decide
        omega
      · rw [String.length_append, String.length_append]
        have h9 : "perf.data".length = 9 := by decide
        have h1 : "/".length = 1 := by decide
        omega

/-- The trace of load_config is empty or a single directory creation. -/
theorem load_config_trace (loaded : Option Config) (ts : String) (w : World) :
    (PerfTool.load_config loaded ts w).2 = [] ∨
    ∃ d, (PerfTool.load_config loaded ts w).2 = [.mkdirRun d] := by
  cases loaded with
  | none => exact Or.inl rfl
  | some cfg =>
    simp only [PerfTool.load_config]
    cases cfgGet cfg "output_directory" (.vStr "tmp/perf_results") with
    | vInt n => exact Or.inl rfl
    | vStr base =>
      by_cases h1 : w.dirExists
      · simp [h1]
      · by_cases h2 : w.mkdirOk
        · simp [h1, h2]
        · simp [h1, h2]
    | vList l => exact Or.inl rfl
    | vBool b => exact Or.inl rfl
    | vNone => exact Or.inl rfl

/-- load_config spawns no external process. -/
theorem load_config_no_spawn (loaded : Option Config) (ts : String) (w : World) :
    ∀ e ∈ (PerfTool.load_config loaded ts w).2, e.isSpawn = false := by
  rcases load_config_trace loaded ts w with h | ⟨d, h⟩ <;> rw [h] <;>
    simp [Event.isSpawn]

/-- load_config writes no configuration snapshot. -/
theorem snapshotContents_load (loaded : Option Config) (ts : String) (w : World) :
    snapshotContents (PerfTool.load_config loaded ts w).2 = [] := by
  rcases load_config_trace loaded ts w with h | ⟨d, h⟩ <;> rw [h] <;> rfl

/-- The record stage trace is empty or one record spawn. -/
theorem run_perf_record_trace (cfg : Config) (d : String) (w : World) :
    (PerfTool.run_perf_record cfg d w).2 = [] ∨
    ∃ c, (PerfTool.run_perf_record cfg d w).2 = [.spawn .record c] := by
  unfold PerfTool.run_perf_record
  cases PerfTool.buildRecordCmd cfg d with
  | error e => exact Or.inl rfl
  | ok c =>
    cases w.recordSpawn
    · exact Or.inr ⟨_, rfl⟩
    · exact Or.inr ⟨_, rfl⟩
    · exact Or.inl rfl

/-- The annotate stage trace is empty or one annotate spawn. -/
theorem run_perf_annotate_trace (cfg : Config) (pdf : String) (w : World) :
    (PerfTool.run_perf_annotate cfg pdf w).2 = [] ∨
    ∃ c, (PerfTool.run_perf_annotate cfg pdf w).2 = [.spawn .annotate c] := by
  unfold PerfTool.run_perf_annotate
  split
  · exact Or.inl rfl
  · cases w.annotateSpawn
    · exact Or.inr ⟨_, rfl⟩
    · exact Or.inr ⟨_, rfl⟩
    · exact Or.inl rfl

/-- The stat stage trace is empty or one stat spawn. -/
theorem run_perf_stat_trace (cfg : Config) (w : World) :
    (PerfTool.run_perf_stat cfg w).2 = [] ∨
    ∃ c, (PerfTool.run_perf_stat cfg w).2 = [.spawn .stat c] := by
  unfold PerfTool.run_perf_stat
  cases PerfTool.buildStatCmd cfg with
  | error e => cases e <;> exact Or.inl rfl
  | ok c =>
    cases w.statSpawn
    · exact Or.inr ⟨_, rfl⟩
    · exact Or.inr ⟨_, rfl⟩
    · exact Or.inl rfl

/-- Unless its spawn raises, the annotate stage returns a boolean. -/
theorem run_perf_annotate_not_exn (cfg : Config) (pdf : String) (w : World)
    (h : w.annotateSpawn ≠ .spawnError) :
    ∃ b tr, PerfTool.run_perf_annotate cfg pdf w = (.ok b, tr) := by
  unfold PerfTool.run_perf_annotate
  split
  · exact ⟨true, [], rfl⟩
  · cases hA : w.annotateSpawn
    · exact ⟨true, _, rfl⟩
    · exact ⟨false, _, rfl⟩
    · exact absurd hA h

/-- Unless its command construction raises or its spawn raises, the stat
stage returns a boolean. -/
theorem run_perf_stat_not_exn (cfg : Config) (w : World)
    (hb : PerfTool.buildStatCmd cfg ≠ .error .typeErr)
    (hs : w.statSpawn ≠ .spawnError) :
    ∃ b tr, PerfTool.run_perf_stat cfg w = (.ok b, tr) := by
  unfold PerfTool.run_perf_stat
  cases hB : PerfTool.buildStatCmd cfg with
  | error e =>
    cases e
    · exact absurd hB hb
    · exact ⟨false, [], rfl⟩
  | ok c =>
    cases hS : w.statSpawn
    · exact ⟨true, _, rfl⟩
    · exact ⟨false, _, rfl⟩
    · exact absurd hS hs

/-- A non-spawn event is not a spawn of any particular stage. -/
theorem isSpawnOf_eq_false_of_not_spawn (e : Event) (st : Stage)
    (h : e.isSpawn = false) : e.isSpawnOf st = false := by
  cases e <;> simp_all [Event.isSpawn, Event.isSpawnOf]

/-- Snapshot contents distribute over trace concatenation. -/
theorem snapshotContents_append (l₁ l₂ : List Event) :
    snapshotContents (l₁ ++ l₂) = snapshotContents l₁ ++ snapshotContents l₂ := by
  simp [snapshotContents]

/-- A single spawn event carries no snapshot. -/
theorem snapshotContents_spawn (st : Stage) (c : List String) :
    snapshotContents [.spawn st c] = [] := rfl

/-- Iff form of pair_infix_nil, for rewriting. -/
theorem pair_infix_nil_iff {α : Type} (a b : α) :
    ([a, b] <:+: ([] : List α)) ↔ False :=
  iff_false_intro (pair_infix_nil a b)

/-- Characterisation of the record command when the configured events and
workload entries are well-typed. -/
theorem buildRecordCmd_eq (cfg : Config) (dir : String) (evs : List String) (wl : String)
    (hev : cfgGet cfg "perf_record_events" (.vList ["cycles"]) = .vList evs)
    (hwl : cfgGet cfg "perf_record_workload" (.vStr "bench futex hash") = .vStr wl) :
    PerfTool.buildRecordCmd cfg dir =
      .ok (["perf", "record", "-F",
            pyStr (cfgGet cfg "perf_record_frequency" (.vInt 99)), "-a"]
        ++ (cond evs.isEmpty []
              ["-e", "\x7b" ++ pyJoinList "," evs ++ "\x7d:S"])
        ++ ["-g", "-a", "-o", pyPathJoin dir "perf.data"]
        ++ (cond (truthy (cfgGet cfg "perf_record_duration" (.vInt 30)))
              ["sleep", pyStr (cfgGet cfg "perf_record_duration" (.vInt 30))]
              [wl])) := by
  have hE : PerfTool.recordEventsTokens (.vList evs) =
      some (cond evs.isEmpty []
              ["-e", "\x7b" ++ pyJoinList "," evs ++ "\x7d:S"]) := by
    cases h : evs.isEmpty <;>
      simp [PerfTool.recordEventsTokens, truthy, pyJoinComma, h]
  have hT : PerfTool.tailTokens (cfgGet cfg "perf_record_duration" (.vInt 30)) (.vStr wl) =
      some (cond (truthy (cfgGet cfg "perf_record_duration" (.vInt 30)))
              ["sleep", pyStr (cfgGet cfg "perf_record_duration" (.vInt 30))]
              [wl]) := by
    cases h : truthy (cfgGet cfg "perf_record_duration" (.vInt 30)) <;>
      simp [PerfTool.tailTokens, h]
  simp only [PerfTool.buildRecordCmd]
  rw [hev, hwl, hE, hT]

/-- Claim C2: for every configuration whose events and workload entries are
well-typed, the record command contains -F followed by the stringified
frequency, contains -g, and contains -o followed by the perf.data path in
the run directory; it contains -e followed by the brace-wrapped colon-S
event group exactly when the configured events list is non-empty; it ends
with the two tokens sleep and the stringified duration exactly when the
duration is truthy, and otherwise its last token is the configured
workload string appended as one single token. -/
theorem c2_record_command_shape (cfg : Config) (dir : String) (cmd : List String)
    (evs : List String) (wl : String)
    (hev : cfgGet cfg "perf_record_events" (.vList ["cycles"]) = .vList evs)
    (hwl : cfgGet cfg "perf_record_workload" (.vStr "bench futex hash") = .vStr wl)
    (hok : PerfTool.buildRecordCmd cfg dir = .ok cmd) :
    (["-F", pyStr (cfgGet cfg "perf_record_frequency" (.vInt 99))] <:+: cmd) ∧
    "-g" ∈ cmd ∧
    (["-o", pyPathJoin dir "perf.data"] <:+: cmd) ∧
    ((["-e", "\x7b" ++ pyJoinList "," evs ++ "\x7d:S"] <:+: cmd) ↔ evs ≠ []) ∧
    ((["sleep", pyStr (cfgGet cfg "perf_record_duration" (.vInt 30))] <:+ cmd) ↔
      truthy (cfgGet cfg "perf_record_duration" (.vInt 30)) = true) ∧
    (truthy (cfgGet cfg "perf_record_duration" (.vInt 30)) = false →
      cmd.getLast? = some wl) := by
  have hB := buildRecordCmd_eq cfg dir evs wl hev hwl
  rw [hok] at hB
  injection hB with hcmd
  subst hcmd
  cases hD : truthy (cfgGet cfg "perf_record_duration" (.vInt 30)) with
  | false =>
    cases evs with
    | nil =>
      have hets : ("\x7b" ++ pyJoinList "," ([] : List String) ++ "\x7d:S") =
          "\x7b\x7d:S" := by decide
      simp only [List.isEmpty_nil, cond_true, cond_false, List.nil_append,
        List.cons_append, List.append_nil, hets]
      refine ⟨⟨["perf", "record"], _, rfl⟩, by simp,
        ⟨["perf", "record", "-F", _, "-a", "-g", "-a"], _, rfl⟩, ?_, ?_, ?_⟩
      · refine iff_of_false ?_ (by simp)
        intro h
        simp only [pair_infix_cons, pair_infix_nil_iff, List.head?_cons,
          List.head?_nil, Option.some.injEq] at h
        simp at h
        have hc := congrArg String.length h.1
        have h2 : "-e".length = 2 := by decide
        have h9 := pyPathJoin_perfdata_length dir
        rw [h2] at hc
        omega
      · refine iff_of_false ?_ (by simp)
        have hform : ("perf" :: "record" :: "-F" ::
              pyStr (cfgGet cfg "perf_record_frequency" (.vInt 99)) :: "-a" ::
              "-g" :: "-a" :: "-o" :: pyPathJoin dir "perf.data" :: [wl]) =
            ["perf", "record", "-F",
              pyStr (cfgGet cfg "perf_record_frequency" (.vInt 99)), "-a",
              "-g", "-a", "-o"] ++ [pyPathJoin dir "perf.data", wl] := by simp
        rw [hform, suffix_pair]
        rintro ⟨h1, h2⟩
        have hc := congrArg String.length h1
        have h5 : "sleep".length = 5 := by decide
        have h9 := pyPathJoin_perfdata_length dir
        rw [h5] at hc
        omega
      · intro _
        simp
    | cons e es =>
      simp only [List.isEmpty_cons, cond_true, cond_false, List.nil_append,
        List.cons_append, List.append_nil]
      refine ⟨⟨["perf", "record"], _, rfl⟩, by simp,
        ⟨["perf", "record", "-F", _, "-a", "-e", _, "-g", "-a"], _, rfl⟩, ?_, ?_, ?_⟩
      · exact iff_of_true ⟨["perf", "record", "-F", _, "-a"], _, rfl⟩ (by simp)
      · refine iff_of_false ?_ (by simp)
        have hform : ("perf" :: "record" :: "-F" ::
              pyStr (cfgGet cfg "perf_record_frequency" (.vInt 99)) :: "-a" ::
              "-e" :: ("\x7b" ++ pyJoinList "," (e :: es) ++ "\x7d:S") ::
              "-g" :: "-a" :: "-o" :: pyPathJoin dir "perf.data" :: [wl]) =
            ["perf", "record", "-F",
              pyStr (cfgGet cfg "perf_record_frequency" (.vInt 99)), "-a",
              "-e", "\x7b" ++ pyJoinList "," (e :: es) ++ "\x7d:S",
              "-g", "-a", "-o"] ++ [pyPathJoin dir "perf.data", wl] := by simp
        rw [hform, suffix_pair]
        rintro ⟨h1, h2⟩
        have hc := congrArg String.length h1
        have h5 : "sleep".length = 5 := by decide
        have h9 := pyPathJoin_perfdata_length dir
        rw [h5] at hc
        omega
      · intro _
        simp
  | true =>
    cases evs with
    | nil =>
      have hets : ("\x7b" ++ pyJoinList "," ([] : List String) ++ "\x7d:S") =
          "\x7b\x7d:S" := by decide
      simp only [List.isEmpty_nil, cond_true, cond_false, List.nil_append,
        List.cons_append, List.append_nil, hets]
      refine ⟨⟨["perf", "record"], _, rfl⟩, by simp,
        ⟨["perf", "record", "-F", _, "-a", "-g", "-a"], _, rfl⟩, ?_, ?_, ?_⟩
      · refine iff_of_false ?_ (by simp)
        intro h
        simp only [pair_infix_cons, pair_infix_nil_iff, List.head?_cons,
          List.head?_nil, Option.some.injEq] at h
        simp at h
      · exact iff_of_true
          ⟨["perf", "record", "-F", _, "-a", "-g", "-a", "-o", _], rfl⟩ (by simp)
      · intro h
        simp at h
    | cons e es =>
      simp only [List.isEmpty_cons, cond_true, cond_false, List.nil_append,
        List.cons_append, List.append_nil]
      refine ⟨⟨["perf", "record"], _, rfl⟩, by simp,
        ⟨["perf", "record", "-F", _, "-a", "-e", _, "-g", "-a"], _, rfl⟩, ?_, ?_, ?_⟩
      · exact iff_of_true ⟨["perf", "record", "-F", _, "-a"], _, rfl⟩ (by simp)
      · exact iff_of_true
          ⟨["perf", "record", "-F", _, "-a", "-e", _, "-g", "-a", "-o", _], rfl⟩ (by simp)
      · intro h
        simp at h

/-- Claim C2 witness: the theorem applied to the minimal configuration in
its run directory, whose record command is recordCmd0. -/
theorem c2_record_command_shape_witness :
    cfgGet cfg0 "perf_record_events" (.vList ["cycles"]) = .vList ["cycles"] ∧
    cfgGet cfg0 "perf_record_workload" (.vStr "bench futex hash") =
      .vStr "bench futex hash" ∧
    PerfTool.buildRecordCmd cfg0 dir0 = .ok recordCmd0 ∧
    (["-F", pyStr (cfgGet cfg0 "perf_record_frequency" (.vInt 99))] <:+: recordCmd0) ∧
    "-g" ∈ recordCmd0 :=
  ⟨by decide, by decide, by decide,
    (c2_record_command_shape cfg0 dir0 recordCmd0 ["cycles"] "bench futex hash"
      (by decide) (by decide) (by decide)).1,
    (c2_record_command_shape cfg0 dir0 recordCmd0 ["cycles"] "bench futex hash"
      (by decide) (by decide) (by decide)).2.1⟩

/-- First component returned by a successful load: the loaded configuration
itself, paired with the resolved run directory. -/
theorem load_config_fst (cfg : Config) (ts : String) (w : World) :
    (PerfTool.load_config (some cfg) ts w).1 = none ∨
    ∃ d, (PerfTool.load_config (some cfg) ts w).1 = some (cfg, d) := by
  simp only [PerfTool.load_config]
  cases cfgGet cfg "output_directory" (.vStr "tmp/perf_results") with
  | vInt n => exact Or.inl rfl
  | vStr base =>
    by_cases h1 : w.dirExists
    · simp [h1]
    · by_cases h2 : w.mkdirOk
      · simp [h1, h2]
      · simp [h1, h2]
  | vList l => exact Or.inl rfl
  | vBool b => exact Or.inl rfl
  | vNone => exact Or.inl rfl

/-- A successful load hands back exactly the configuration it was given. -/
theorem load_config_some_eq (cfg c2 : Config) (d2 ts : String) (w : World)
    (tr : List Event)
    (hl : PerfTool.load_config (some cfg) ts w = (some (c2, d2), tr)) : c2 = cfg := by
  rcases load_config_fst cfg ts w with h | ⟨d, h⟩ <;> rw [hl] at h <;> simp at h
  exact h.1

/-- When validation fails, run stops right after loading. -/
theorem run_validate_false (cfg : Config) (ts : String) (w : World)
    (hv : PerfTool.validate_config cfg = false) :
    PerfTool.run (some cfg) ts w =
      (.failure, (PerfTool.load_config (some cfg) ts w).2) := by
  unfold PerfTool.run
  rcases hl : PerfTool.load_config (some cfg) ts w with ⟨o, tr⟩
  cases o with
  | none => rfl
  | some p =>
    rcases p with ⟨c2, d2⟩
    have hc2 : c2 = cfg := load_config_some_eq cfg c2 d2 ts w tr hl
    subst hc2
    simp [hv]

/-- A configuration missing a required key fails validation. -/
theorem validate_config_eq_false_of_missing (cfg : Config) (k : String)
    (hk : k ∈ PerfTool.required_keys) (hmiss : cfgFind cfg k = none) :
    PerfTool.validate_config cfg = false := by
  cases hva : PerfTool.validate_config cfg
  · rfl
  · exfalso
    rw [PerfTool.validate_config] at hva
    have h2 := List.all_eq_true.mp hva k hk
    rw [cfgHas, hmiss] at h2
    simp at h2

/-- Claim C3: for every configuration missing at least one of the three
required keys, validation fails, the run aborts with a failing outcome,
and no external process is spawned. -/
theorem c3_missing_key_aborts_before_spawn (cfg : Config) (ts : String) (w : World)
    (k : String) (hk : k ∈ PerfTool.required_keys) (hmiss : cfgFind cfg k = none) :
    PerfTool.validate_config cfg = false ∧
    (PerfTool.run (some cfg) ts w).1 = .failure ∧
    ∀ e ∈ (PerfTool.run (some cfg) ts w).2, e.isSpawn = false := by
  have hv := validate_config_eq_false_of_missing cfg k hk hmiss
  refine ⟨hv, ?_, ?_⟩
  · rw [run_validate_false cfg ts w hv]
  · rw [run_validate_false cfg ts w hv]
    exact load_config_no_spawn (some cfg) ts w

/-- Claim C3 witness: the theorem applied to a configuration missing the
stat duration, in a healthy world. -/
theorem c3_missing_key_aborts_before_spawn_witness :
    "perf_stat_duration" ∈ PerfTool.required_keys ∧
    cfgFind cfgMissing "perf_stat_duration" = none ∧
    PerfTool.validate_config cfgMissing = false ∧
    (PerfTool.run (some cfgMissing) ts0 wGood).1 = .failure :=
  ⟨by decide, by decide,
    (c3_missing_key_aborts_before_spawn cfgMissing ts0 wGood "perf_stat_duration"
      (by decide) (by decide)).1,
    (c3_missing_key_aborts_before_spawn cfgMissing ts0 wGood "perf_stat_duration"
      (by decide) (by decide)).2.1⟩

/-- Claim C9: validation inspects only the presence of the three required
keys, never their values or types: any configuration in which all three
keys are bound validates successfully. -/
theorem c9_validate_presence_only (cfg : Config)
    (h : ∀ k ∈ PerfTool.required_keys, cfgHas cfg k = true) :
    PerfTool.validate_config cfg = true := by
  rw [PerfTool.validate_config]
  exact List.all_eq_true.mpr h

/-- Claim C9 witness: a configuration with a non-numeric frequency, a
negative duration and a null stat duration still validates. -/
theorem c9_validate_presence_only_witness :
    (∀ k ∈ PerfTool.required_keys, cfgHas cfg9 k = true) ∧
    PerfTool.validate_config cfg9 = true :=
  ⟨by decide, c9_validate_presence_only cfg9 (by decide)⟩

/-- Claim C10: the timestamped run directory is created while the
configuration loads, before validation runs: when loading succeeds in a
fresh directory but a required key is missing, the run aborts with a
failing outcome and its whole trace is the one directory-creation event
for the perf_run_(timestamp) path. -/
theorem c10_dir_created_before_validation (cfg : Config) (ts base : String)
    (w : World) (k : String)
    (hbase : cfgGet cfg "output_directory" (.vStr "tmp/perf_results") = .vStr base)
    (hnew : w.dirExists = false) (hmk : w.mkdirOk = true)
    (hk : k ∈ PerfTool.required_keys) (hmiss : cfgFind cfg k = none) :
    PerfTool.run (some cfg) ts w =
      (.failure, [.mkdirRun (pyPathJoin base ("perf_run_" ++ ts))]) := by
  have hload : PerfTool.load_config (some cfg) ts w =
      (some (cfg, pyPathJoin base ("perf_run_" ++ ts)),
       [.mkdirRun (pyPathJoin base ("perf_run_" ++ ts))]) := by
    simp only [PerfTool.load_config]
    rw [hbase]
    simp [hnew, hmk]
  rw [run_validate_false cfg ts w
    (validate_config_eq_false_of_missing cfg k hk hmiss), hload]

/-- Claim C10 witness: the theorem applied to the configuration missing
its durations, with the default base directory. -/
theorem c10_dir_created_before_validation_witness :
    cfgGet cfgMissing "output_directory" (.vStr "tmp/perf_results") =
      .vStr "tmp/perf_results" ∧
    wGood.dirExists = false ∧
    cfgFind cfgMissing "perf_stat_duration" = none ∧
    PerfTool.run (some cfgMissing) ts0 wGood =
      (.failure, [.mkdirRun (pyPathJoin "tmp/perf_results" ("perf_run_" ++ ts0))]) :=
  ⟨by decide, rfl, by decide,
    c10_dir_created_before_validation cfgMissing ts0 "tmp/perf_results" wGood
      "perf_stat_duration" (by decide) rfl rfl (by decide) (by decide)⟩

/-- Characterisation of the stat event tokens for a well-typed list. -/
theorem statEventsTokens_eq (evs : List String) :
    PerfTool.statEventsTokens (.vList evs) =
      some (cond evs.isEmpty [] ["-e", pyJoinList "," evs]) := by
  cases h : evs.isEmpty <;>
    simp [PerfTool.statEventsTokens, truthy, pyJoinComma, h]

/-- Any stat command the builder returns carries the tokens that the
cpu_range parser produced. -/
theorem buildStatCmd_cpu (cfg : Config) (evs : List String) (r cl : String)
    (hev : cfgGet cfg "perf_stat_events" (.vList PerfTool.statDefaultEvents) =
      .vList evs)
    (hcr : cfgGet cfg "perf_stat_cpu_range" (.vStr "all") = .vStr r)
    (hcl : PerfTool.statCpuTokens (.vStr r) = some ["-C", cl]) :
    ∀ cmd, PerfTool.buildStatCmd cfg = .ok cmd → ["-C", cl] <:+: cmd := by
  intro cmd hcmd
  simp only [PerfTool.buildStatCmd] at hcmd
  rw [hev, hcr, statEventsTokens_eq, hcl] at hcmd
  cases hT : PerfTool.tailTokens (cfgGet cfg "perf_stat_duration" (.vInt 10))
      (cfgGet cfg "perf_stat_workload" (.vStr "bench futex hash")) with
  | none =>
    rw [hT] at hcmd
    simp at hcmd
  | some tTok =>
    rw [hT] at hcmd
    simp only [Except.ok.injEq] at hcmd
    subst hcmd
    exact ⟨["perf", "stat", "-a"]
        ++ (if truthy (cfgGet cfg "perf_stat_count_deltas" (.vInt 1000)) = true then
              ["-I", pyStr (cfgGet cfg "perf_stat_count_deltas" (.vInt 1000))] else [])
        ++ cond evs.isEmpty [] ["-e", pyJoinList "," evs],
      (if truthy (cfgGet cfg "perf_stat_all_threads" (.vBool true)) = true then
          ["-A"] else []) ++ tTok,
      by simp⟩

/-- When the cpu_range parse raises, the stat stage catches the exception
and returns failure without spawning a process. -/
theorem run_perf_stat_cpu_fail (cfg : Config) (evs : List String) (r : String)
    (w : World)
    (hev : cfgGet cfg "perf_stat_events" (.vList PerfTool.statDefaultEvents) =
      .vList evs)
    (hcr : cfgGet cfg "perf_stat_cpu_range" (.vStr "all") = .vStr r)
    (hfail : PerfTool.statCpuTokens (.vStr r) = none) :
    PerfTool.run_perf_stat cfg w = (.ok false, []) := by
  have hb : PerfTool.buildStatCmd cfg = .error .cpuRangeErr := by
    simp only [PerfTool.buildStatCmd]
    rw [hev, hcr, statEventsTokens_eq, hfail]
  unfold PerfTool.run_perf_stat
  rw [hb]

/-- Claim C1 (amended): with a well-typed stat events list, a cpu_range of
0-3 puts the tokens -C 0,1,2,3 into any stat command that is built; a
cpu_range of x-y is a validation failure: the stat stage returns failure
without spawning; but a cpu_range of 3-0 (start greater than end) is not
rejected: the command is built with -C followed by an empty cpu list. -/
theorem c1_stat_cpu_range (cfg : Config) (evs : List String)
    (hev : cfgGet cfg "perf_stat_events" (.vList PerfTool.statDefaultEvents) =
      .vList evs) :
    (cfgGet cfg "perf_stat_cpu_range" (.vStr "all") = .vStr "0-3" →
      ∀ cmd, PerfTool.buildStatCmd cfg = .ok cmd → ["-C", "0,1,2,3"] <:+: cmd) ∧
    (cfgGet cfg "perf_stat_cpu_range" (.vStr "all") = .vStr "x-y" →
      ∀ w, PerfTool.run_perf_stat cfg w = (.ok false, [])) ∧
    (cfgGet cfg "perf_stat_cpu_range" (.vStr "all") = .vStr "3-0" →
      ∀ cmd, PerfTool.buildStatCmd cfg = .ok cmd → ["-C", ""] <:+: cmd) := by
  refine ⟨?_, ?_, ?_⟩
  · intro hcr
    exact buildStatCmd_cpu cfg evs "0-3" "0,1,2,3" hev hcr (by decide)
  · intro hcr w
    exact run_perf_stat_cpu_fail cfg evs "x-y" w hev hcr (by decide)
  · intro hcr
    exact buildStatCmd_cpu cfg evs "3-0" "" hev hcr (by decide)

/-- Claim C1 counterexample: with cpu_range 3-0 the stat stage does not
report a validation failure; the command is built with an empty -C list
and the external process is spawned (here exiting cleanly). -/
theorem c1_stat_cpu_range_counterexample :
    PerfTool.run_perf_stat cfg30 wGood =
      (.ok true, [.spawn .stat
        ["perf", "stat", "-a", "-I", "1000", "-e", statEv5, "-C", "", "-A",
         "sleep", "10"]]) := by decide

/-- Claim C1 witness: the amended theorem applied to the configuration
with cpu_range 0-3 and its concrete stat command. -/
theorem c1_stat_cpu_range_witness :
    cfgGet cfgRange "perf_stat_cpu_range" (.vStr "all") = .vStr "0-3" ∧
    ["-C", "0,1,2,3"] <:+:
      ["perf", "stat", "-a", "-I", "1000", "-e", statEv5, "-C", "0,1,2,3", "-A",
       "sleep", "10"] :=
  ⟨by decide,
    (c1_stat_cpu_range cfgRange PerfTool.statDefaultEvents (by decide)).1 (by decide)
      ["perf", "stat", "-a", "-I", "1000", "-e", statEv5, "-C", "0,1,2,3", "-A",
       "sleep", "10"] (by decide)⟩

/-- Shape of a full run once the record stage has succeeded. -/
theorem run_record_ok (cfg : Config) (ts dir : String) (w : World)
    (tr tr2 tr3 : List Event) (rcmd : List String) (b2 b3 : Bool)
    (hload : PerfTool.load_config (some cfg) ts w = (some (cfg, dir), tr))
    (hvalid : PerfTool.validate_config cfg = true)
    (hbuild : PerfTool.buildRecordCmd cfg dir = .ok rcmd)
    (hrec : w.recordSpawn = .exitZero)
    (hA : PerfTool.run_perf_annotate cfg (pyPathJoin dir "perf.data") w = (.ok b2, tr2))
    (hS : PerfTool.run_perf_stat cfg w = (.ok b3, tr3)) :
    PerfTool.run (some cfg) ts w =
      (if w.snapshotWriteOk then
        (.success, tr ++ [.spawn .record rcmd] ++ tr2 ++ tr3 ++ [.writeSnapshot cfg])
       else (.crash, tr ++ [.spawn .record rcmd] ++ tr2 ++ tr3)) := by
  have hR : PerfTool.run_perf_record cfg dir w =
      (.ok (some (pyPathJoin dir "perf.data")), [.spawn .record rcmd]) := by
    unfold PerfTool.run_perf_record
    rw [hbuild, hrec]
  unfold PerfTool.run
  rw [hload]
  by_cases hsn : w.snapshotWriteOk <;> simp [hvalid, hR, hA, hS, hsn]

/-- Claim C4: if the record child exits non-zero after a successful load
and validation, the run ends with a failing outcome (the Aborted state)
and neither the annotate stage nor the stat stage is ever spawned. -/
theorem c4_record_failure_aborts (cfg : Config) (ts dir : String) (w : World)
    (tr : List Event) (rcmd : List String)
    (hload : PerfTool.load_config (some cfg) ts w = (some (cfg, dir), tr))
    (hvalid : PerfTool.validate_config cfg = true)
    (hbuild : PerfTool.buildRecordCmd cfg dir = .ok rcmd)
    (hrec : w.recordSpawn = .exitNonZero) :
    (PerfTool.run (some cfg) ts w).1 = .failure ∧
    ∀ e ∈ (PerfTool.run (some cfg) ts w).2,
      e.isSpawnOf .annotate = false ∧ e.isSpawnOf .stat = false := by
  have hR : PerfTool.run_perf_record cfg dir w = (.ok none, [.spawn .record rcmd]) := by
    unfold PerfTool.run_perf_record
    rw [hbuild, hrec]
  have hrun : PerfTool.run (some cfg) ts w =
      (.failure, tr ++ [.spawn .record rcmd]) := by
    unfold PerfTool.run
    rw [hload]
    simp [hvalid, hR]
  rw [hrun]
  refine ⟨rfl, ?_⟩
  intro e he
  rcases List.mem_append.mp he with h | h
  · have hs := load_config_no_spawn (some cfg) ts w e (by rw [hload]; exact h)
    exact ⟨isSpawnOf_eq_false_of_not_spawn e _ hs, isSpawnOf_eq_false_of_not_spawn e _ hs⟩
  · rw [List.mem_singleton] at h
    subst h
    exact ⟨rfl, rfl⟩

/-- Claim C4 witness: the theorem applied to the minimal configuration in
a world whose record child exits with status 1. -/
theorem c4_record_failure_aborts_witness :
    wRecFail.recordSpawn = .exitNonZero ∧
    (PerfTool.run (some cfg0) ts0 wRecFail).1 = .failure :=
  ⟨rfl, (c4_record_failure_aborts cfg0 ts0 dir0 wRecFail [.mkdirRun dir0] recordCmd0
    (by decide) (by decide) (by decide) rfl).1⟩

/-- Claim C5: after a successful record stage, a failing stat child (and
likewise a failing or succeeding annotate child) is non-fatal: the run
reaches Done with outcome success and the process exit status is 0. -/
theorem c5_stat_failure_nonfatal (cfg : Config) (ts dir : String) (w : World)
    (tr : List Event) (rcmd : List String)
    (hload : PerfTool.load_config (some cfg) ts w = (some (cfg, dir), tr))
    (hvalid : PerfTool.validate_config cfg = true)
    (hbuild : PerfTool.buildRecordCmd cfg dir = .ok rcmd)
    (hrec : w.recordSpawn = .exitZero)
    (hann : w.annotateSpawn = .exitZero ∨ w.annotateSpawn = .exitNonZero)
    (hstat : w.statSpawn = .exitNonZero)
    (hsb : PerfTool.buildStatCmd cfg ≠ .error .typeErr)
    (hsnap : w.snapshotWriteOk = true) :
    (PerfTool.run (some cfg) ts w).1 = .success ∧
    exitCode (PerfTool.run (some cfg) ts w).1 = 0 := by
  have hann2 : w.annotateSpawn ≠ .spawnError := by
    rcases hann with h | h <;> rw [h] <;> simp
  have hstat2 : w.statSpawn ≠ .spawnError := by
    rw [hstat]
    simp
  obtain ⟨b2, tr2, hA⟩ :=
    run_perf_annotate_not_exn cfg (pyPathJoin dir "perf.data") w hann2
  obtain ⟨b3, tr3, hS⟩ := run_perf_stat_not_exn cfg w hsb hstat2
  have hrun := run_record_ok cfg ts dir w tr tr2 tr3 rcmd b2 b3
    hload hvalid hbuild hrec hA hS
  rw [hrun, if_pos hsnap]
  exact ⟨rfl, rfl⟩

/-- Claim C5 witness: the theorem applied to the minimal configuration in
a world whose stat child exits with status 1. -/
theorem c5_stat_failure_nonfatal_witness :
    wStatFail.statSpawn = .exitNonZero ∧
    (PerfTool.run (some cfg0) ts0 wStatFail).1 = .success ∧
    exitCode (PerfTool.run (some cfg0) ts0 wStatFail).1 = 0 :=
  ⟨rfl,
    (c5_stat_failure_nonfatal cfg0 ts0 dir0 wStatFail [.mkdirRun dir0] recordCmd0
      (by decide) (by decide) (by decide) rfl (Or.inl rfl) rfl (by decide) rfl).1,
    (c5_stat_failure_nonfatal cfg0 ts0 dir0 wStatFail [.mkdirRun dir0] recordCmd0
      (by decide) (by decide) (by decide) rfl (Or.inl rfl) rfl (by decide) rfl).2⟩

/-- The annotate stage trace carries no snapshot. -/
theorem snapshotContents_annotate (cfg : Config) (pdf : String) (w : World) :
    snapshotContents (PerfTool.run_perf_annotate cfg pdf w).2 = [] := by
  rcases run_perf_annotate_trace cfg pdf w with h | ⟨c, h⟩ <;> rw [h] <;> rfl

/-- The stat stage trace carries no snapshot. -/
theorem snapshotContents_stat (cfg : Config) (w : World) :
    snapshotContents (PerfTool.run_perf_stat cfg w).2 = [] := by
  rcases run_perf_stat_trace cfg w with h | ⟨c, h⟩ <;> rw [h] <;> rfl

/-- Claim C6 (amended): the configuration snapshot is persisted at the end
of every run whose record stage succeeded, regardless of annotate or stat
failures; but a failing snapshot write is an uncaught exception, so the
run crashes with a non-zero exit status instead of still reporting
success, and a run aborted by a record failure writes no snapshot. -/
theorem c6_snapshot_amended (cfg : Config) (ts dir : String) (w : World)
    (tr : List Event) (rcmd : List String)
    (hload : PerfTool.load_config (some cfg) ts w = (some (cfg, dir), tr))
    (hvalid : PerfTool.validate_config cfg = true)
    (hbuild : PerfTool.buildRecordCmd cfg dir = .ok rcmd)
    (hrec : w.recordSpawn = .exitZero)
    (hann : w.annotateSpawn ≠ .spawnError)
    (hstat : w.statSpawn ≠ .spawnError)
    (hsb : PerfTool.buildStatCmd cfg ≠ .error .typeErr) :
    (w.snapshotWriteOk = true →
      .writeSnapshot cfg ∈ (PerfTool.run (some cfg) ts w).2 ∧
      (PerfTool.run (some cfg) ts w).1 = .success) ∧
    (w.snapshotWriteOk = false →
      (PerfTool.run (some cfg) ts w).1 = .crash ∧
      exitCode (PerfTool.run (some cfg) ts w).1 = 1) := by
  obtain ⟨b2, tr2, hA⟩ :=
    run_perf_annotate_not_exn cfg (pyPathJoin dir "perf.data") w hann
  obtain ⟨b3, tr3, hS⟩ := run_perf_stat_not_exn cfg w hsb hstat
  have hrun := run_record_ok cfg ts dir w tr tr2 tr3 rcmd b2 b3
    hload hvalid hbuild hrec hA hS
  constructor
  · intro hsn
    rw [hrun, if_pos hsn]
    exact ⟨by simp, rfl⟩
  · intro hsn
    rw [hrun, if_neg (by rw [hsn]; simp)]
    exact ⟨rfl, rfl⟩

/-- Claim C6 counterexample: when the record child fails no snapshot is
written at all, and when everything succeeds except the snapshot write the
run crashes with a non-zero exit status instead of reporting success. -/
theorem c6_snapshot_counterexample :
    snapshotContents (PerfTool.run (some cfg0) ts0 wRecFail).2 = [] ∧
    (PerfTool.run (some cfg0) ts0 wRecFail).1 = .failure ∧
    (PerfTool.run (some cfg0) ts0 wNoSnap).1 = .crash ∧
    exitCode (PerfTool.run (some cfg0) ts0 wNoSnap).1 = 1 := by decide

/-- Claim C6 witness: the amended theorem applied to the minimal
configuration in the all-good world. -/
theorem c6_snapshot_amended_witness :
    wGood.snapshotWriteOk = true ∧
    .writeSnapshot cfg0 ∈ (PerfTool.run (some cfg0) ts0 wGood).2 ∧
    (PerfTool.run (some cfg0) ts0 wGood).1 = .success :=
  ⟨rfl,
    ((c6_snapshot_amended cfg0 ts0 dir0 wGood [.mkdirRun dir0] recordCmd0
      (by decide) (by decide) (by decide) rfl (by decide) (by decide)
      (by decide)).1 rfl).1,
    ((c6_snapshot_amended cfg0 ts0 dir0 wGood [.mkdirRun dir0] recordCmd0
      (by decide) (by decide) (by decide) rfl (by decide) (by decide)
      (by decide)).1 rfl).2⟩

/-- Claim C7 (amended): the persisted snapshot is the configuration
exactly as loaded: defaults are applied only when options are read, and an
optional option absent from the input is absent from the snapshot too. -/
theorem c7_snapshot_is_loaded_config (cfg : Config) (ts dir : String) (w : World)
    (tr : List Event) (rcmd : List String)
    (hload : PerfTool.load_config (some cfg) ts w = (some (cfg, dir), tr))
    (hvalid : PerfTool.validate_config cfg = true)
    (hbuild : PerfTool.buildRecordCmd cfg dir = .ok rcmd)
    (hrec : w.recordSpawn = .exitZero)
    (hann : w.annotateSpawn ≠ .spawnError)
    (hstat : w.statSpawn ≠ .spawnError)
    (hsb : PerfTool.buildStatCmd cfg ≠ .error .typeErr)
    (hsnap : w.snapshotWriteOk = true) :
    snapshotContents (PerfTool.run (some cfg) ts w).2 = [cfg] := by
  obtain ⟨b2, tr2, hA⟩ :=
    run_perf_annotate_not_exn cfg (pyPathJoin dir "perf.data") w hann
  obtain ⟨b3, tr3, hS⟩ := run_perf_stat_not_exn cfg w hsb hstat
  have hrun := run_record_ok cfg ts dir w tr tr2 tr3 rcmd b2 b3
    hload hvalid hbuild hrec hA hS
  rw [hrun, if_pos hsnap]
  have h1 : snapshotContents tr = [] := by
    have h := snapshotContents_load (some cfg) ts w
    rw [hload] at h
    exact h
  have h2 : snapshotContents tr2 = [] := by
    have h := snapshotContents_annotate cfg (pyPathJoin dir "perf.data") w
    rw [hA] at h
    exact h
  have h3 : snapshotContents tr3 = [] := by
    have h := snapshotContents_stat cfg w
    rw [hS] at h
    exact h
  rw [snapshotContents_append, snapshotContents_append, snapshotContents_append,
    snapshotContents_append, h1, h2, h3, snapshotContents_spawn]
  rfl

/-- Claim C7 counterexample: in a fully successful run of the minimal
configuration, the snapshot is that configuration verbatim; the absent
optional option perf_record_events is not recorded in it, although its
documented default (the cycles event list) is what the run used. -/
theorem c7_snapshot_counterexample :
    snapshotContents (PerfTool.run (some cfg0) ts0 wGood).2 = [cfg0] ∧
    cfgFind cfg0 "perf_record_events" = none ∧
    cfgGet cfg0 "perf_record_events" (.vList ["cycles"]) = .vList ["cycles"] := by
  decide

/-- Claim C7 witness: the amended theorem applied to the minimal
configuration in the all-good world. -/
theorem c7_snapshot_is_loaded_config_witness :
    wGood.snapshotWriteOk = true ∧
    snapshotContents (PerfTool.run (some cfg0) ts0 wGood).2 = [cfg0] :=
  ⟨rfl,
    c7_snapshot_is_loaded_config cfg0 ts0 dir0 wGood [.mkdirRun dir0] recordCmd0
      (by decide) (by decide) (by decide) rfl (by decide) (by decide)
      (by decide) rfl⟩

/-- Claim C8 (amended): in every stage a non-zero child exit is caught and
handed back to the orchestrator as a stage failure, but a process spawn
failure (OSError: binary not found, permission denied) is not caught by
the CalledProcessError handler: the stage raises an unhandled exception
instead of returning a failure result. -/
theorem c8_spawn_error_uncaught (cfg : Config) (dir pdf : String) (w : World)
    (rcmd scmd : List String)
    (hbr : PerfTool.buildRecordCmd cfg dir = .ok rcmd)
    (hbs : PerfTool.buildStatCmd cfg = .ok scmd)
    (henn : truthy (cfgGet cfg "use_perf_annotation" (.vBool false)) = true) :
    (w.recordSpawn = .exitNonZero →
      PerfTool.run_perf_record cfg dir w = (.ok none, [.spawn .record rcmd])) ∧
    (w.recordSpawn = .spawnError →
      PerfTool.run_perf_record cfg dir w = (.exn, [])) ∧
    (w.annotateSpawn = .exitNonZero →
      PerfTool.run_perf_annotate cfg pdf w =
        (.ok false, [.spawn .annotate ["perf", "annotate", "-i", pdf]])) ∧
    (w.annotateSpawn = .spawnError →
      PerfTool.run_perf_annotate cfg pdf w = (.exn, [])) ∧
    (w.statSpawn = .exitNonZero →
      PerfTool.run_perf_stat cfg w = (.ok false, [.spawn .stat scmd])) ∧
    (w.statSpawn = .spawnError →
      PerfTool.run_perf_stat cfg w = (.exn, [])) := by
  refine ⟨?_, ?_, ?_, ?_, ?_, ?_⟩ <;> intro h
  · unfold PerfTool.run_perf_record
    rw [hbr, h]
  · unfold PerfTool.run_perf_record
    rw [hbr, h]
  · simp [PerfTool.run_perf_annotate, henn, h]
  · simp [PerfTool.run_perf_annotate, henn, h]
  · unfold PerfTool.run_perf_stat
    rw [hbs, h]
  · unfold PerfTool.run_perf_stat
    rw [hbs, h]

/-- Claim C8 counterexample: a spawn failure is not handled like a
non-zero exit: in the record stage an OSError propagates as an unhandled
exception and the whole run crashes, where a non-zero exit returns an
ordinary failure result. -/
theorem c8_spawn_error_counterexample :
    PerfTool.run_perf_record cfg0 dir0 wRecSpawnErr = (.exn, []) ∧
    PerfTool.run_perf_record cfg0 dir0 wRecFail =
      (.ok none, [.spawn .record recordCmd0]) ∧
    PerfTool.run (some cfg0) ts0 wRecSpawnErr = (.crash, [.mkdirRun dir0]) := by
  decide

/-- Claim C8 witness: the amended theorem applied to the configuration
with annotation enabled, in a world whose record child exits non-zero. -/
theorem c8_spawn_error_uncaught_witness :
    PerfTool.buildRecordCmd cfgAnn dir0 = .ok recordCmd0 ∧
    truthy (cfgGet cfgAnn "use_perf_annotation" (.vBool false)) = true ∧
    PerfTool.run_perf_record cfgAnn dir0 wRecFail =
      (.ok none, [.spawn .record recordCmd0]) :=
  ⟨by decide, by decide,
    (c8_spawn_error_uncaught cfgAnn dir0 "p" wRecFail recordCmd0
      ["perf", "stat", "-a", "-I", "1000", "-e", statEv5, "-A", "sleep", "10"]
      (by decide) (by decide) (by decide)).1 rfl⟩
